import Mathlib

set_option linter.unusedVariables false

/-!
Verification development for the `midnight-devkit` CLI.

The definitions below are a shallow embedding of the TypeScript sources:

* `packages/cli/src/commands/deploy.ts`   — the `deploy` command;
* `packages/cli/src/commands/init.ts`     — the `init` command and its
  `createProjectStructure` helper;
* `packages/cli/src/commands/contract.ts` — `contract compile` (one-shot and
  watch mode), `contract verify`;
* `packages/cli/src/commands/proof-server.ts` — `start`, `stop`, `status`,
  `logs`;
* `packages/cli/src/commands/test.ts`     — the `test` command.

Modelling conventions: the filesystem is a list of existing paths plus a list
of written files; JavaScript truthiness of strings (`""` is falsy) is made
explicit by `jsOrStr` / `jsOrOptStr`; terminal output is abstracted to the
discrete spinner/console messages (`Msg.info`, `Msg.warn`, `Msg.fail`,
`Msg.success`), dropping colour and emoji; `process.exit(1)` is modelled as an
`Option Nat` exit request, `none` meaning the process falls off the end of
execution and exits 0.  Values produced by `Math.random` and `Date` are taken
as parameters.
-/

namespace Midnight

/-- JavaScript `a || b` for strings: `""` is falsy. -/
def jsOrStr (a b : String) : String :=
  if a = "" then b else a

/-- JavaScript `a || b` where `a` may be `undefined` (modelled `Option`):
`undefined` and `""` are falsy. -/
def jsOrOptStr (a : Option String) (b : String) : String :=
  match a with
  | none => b
  | some s => jsOrStr s b

/-- `path.join` with forward slashes, as used on the paths in the sources. -/
def pathJoin (a b : String) : String :=
  a ++ "/" ++ b

/-- A discrete terminal message: `ora` spinner notices (`info`, `warn`,
`fail`, `succeed`) and `console.error` output are all reduced to these. -/
inductive Msg
  | info (text : String)
  | warn (text : String)
  | fail (text : String)
  | success (text : String)
deriving DecidableEq, Repr

/-- Whether a message is a warning (`spinner.warn`). -/
def Msg.isWarnB : Msg → Bool
  | .warn _ => true
  | _ => false

/-! ### Deployment ledger (`deploy.ts`) -/

/-- The record stored per network in `deployments.json` (`deploy.ts`,
`deploymentInfo`).  `contractAddress`, `transactionHash`, `blockNumber` and
`timestamp` are produced from mock randomness and the clock, so they are
plain data here. -/
structure DeploymentRecord where
  network : String
  contractAddress : String
  transactionHash : String
  blockNumber : Nat
  timestamp : String
deriving DecidableEq, Repr

/-- The parsed `deployments.json` object: a JSON mapping from network name to
record, in key insertion order. -/
def Ledger := List (String × DeploymentRecord)
deriving DecidableEq, Repr

/-- JavaScript property read `obj[k]`: first binding for the key. -/
def lookupKey : Ledger → String → Option DeploymentRecord
  | [], _ => none
  | (k', v') :: rest, k => if k' = k then some v' else lookupKey rest k

/-- JavaScript property write `obj[k] = v`: replace the existing binding in
place, or append a new one. -/
def setKey : Ledger → String → DeploymentRecord → Ledger
  | [], k, v => [(k, v)]
  | (k', v') :: rest, k, v =>
    if k' = k then (k, v) :: rest else (k', v') :: setKey rest k v

/-- `deploy.ts` lines 80–86: read `deployments.json` if it exists (else start
from `{}`), assign `deployments[network] = deploymentInfo`, write back. -/
def saveDeployment (prior : Option Ledger) (network : String)
    (info : DeploymentRecord) : Ledger :=
  setKey (prior.getD []) network info

/-! ### The `deploy` command action -/

/-- The `compiler` object of `midnight.config.json` as read by `deploy.ts`
(`config.compiler?.outputDir`). -/
structure CompilerCfg where
  outputDir : Option String
deriving DecidableEq, Repr

/-- The parsed configuration file, with the fields `deploy.ts` consults;
absent JSON fields are `none`. -/
structure ConfigFile where
  network : Option String
  compiler : Option CompilerCfg
deriving DecidableEq, Repr

/-- The command-line options of `deploy` (`DeployOptions` in `deploy.ts`).
`commander` supplies the default `"testnet"` for `--network`, so `network`
is always a string; `--contract` and `--config` have no mandatory value. -/
structure DeployOpts where
  network : String
  contractPath : Option String
  configPath : Option String
  verbose : Bool
deriving DecidableEq, Repr

/-- Default of the `--network` flag (`deploy.ts` line 17). -/
def deployDefaultNetwork : String := "testnet"

/-- `options.configPath || 'midnight.config.json'` (`deploy.ts` line 28;
`path.resolve` is kept relative in the model). -/
def resolveConfigPath (opts : DeployOpts) : String :=
  jsOrOptStr opts.configPath "midnight.config.json"

/-- `options.network || config.network || 'testnet'` (`deploy.ts` line 34). -/
def resolveNetwork (flag : String) (cfgNetwork : Option String) : String :=
  jsOrStr flag (jsOrOptStr cfgNetwork "testnet")

/-- `options.contractPath || path.join(config.compiler?.outputDir || 'build',
'contract.wasm')` (`deploy.ts` lines 39–40). -/
def resolveContractPath (opts : DeployOpts) (cfg : ConfigFile) : String :=
  jsOrOptStr opts.contractPath
    (pathJoin (jsOrOptStr (cfg.compiler.bind (·.outputDir)) "build")
      "contract.wasm")

/-- The environment the `deploy` action reads: which paths exist, the parsed
configuration file (consulted only when its path exists), the current
contents of `deployments.json` (`none` when absent), and whether the proof
server answers the health probe. -/
structure DeployEnv where
  existingPaths : List String
  configContent : ConfigFile
  ledgerFile : Option Ledger
  proofServerHealthy : Bool
deriving DecidableEq, Repr

/-- The values `deploy.ts` draws from `Math.random` and `new Date()` for the
deployment record. -/
structure DeployNondet where
  mockAddress : String
  mockTxHash : String
  blockNumber : Nat
  timestamp : String
deriving DecidableEq, Repr

/-- Result of one run of the `deploy` action: messages, requested exit code
(`none` = fall through, exit 0), the `deployments.json` contents afterwards,
and whether any network/deployment step (health probe, auto-start,
`simulateDeployment`) was performed. -/
structure DeployResult where
  msgs : List Msg
  exit : Option Nat
  ledgerFile : Option Ledger
  networkContacted : Bool
deriving DecidableEq, Repr

/-- The `deploy` action (`deploy.ts` lines 21–98).  Thrown errors land in the
catch block, which prints a failure and calls `process.exit(1)`; nothing
after the throw point runs, so on those paths the ledger file is untouched
and no network step happens. -/
def deployRun (env : DeployEnv) (opts : DeployOpts) (nd : DeployNondet) :
    DeployResult :=
  let configPath := resolveConfigPath opts
  if configPath ∉ env.existingPaths then
    { msgs := [.fail "Deployment failed",
               .fail ("Error: Configuration file not found: " ++ configPath)],
      exit := some 1, ledgerFile := env.ledgerFile, networkContacted := false }
  else
    let network := resolveNetwork opts.network env.configContent.network
    let contractPath := resolveContractPath opts env.configContent
    if contractPath ∉ env.existingPaths then
      { msgs := [.fail "Deployment failed",
                 .fail ("Error: Compiled contract not found at " ++
                   contractPath ++ ". Run npm run compile-contract first.")],
        exit := some 1, ledgerFile := env.ledgerFile,
        networkContacted := false }
    else
      let info : DeploymentRecord :=
        { network := network, contractAddress := nd.mockAddress,
          transactionHash := nd.mockTxHash, blockNumber := nd.blockNumber,
          timestamp := nd.timestamp }
      { msgs :=
          (if env.proofServerHealthy then []
           else [.warn "Proof server not running. Starting it now..."]) ++
          [.success ("Contract deployed successfully to " ++ network ++ "!"),
           .info "Deployment info saved to deployments.json"],
        exit := none,
        ledgerFile := some (saveDeployment env.ledgerFile network info),
        networkContacted := true }

/-! ### The `init` command (`init.ts`) -/

/-- Character class `[a-z0-9-]` of the name-validation regex
(`init.ts` line 56). -/
def isNameChar (c : Char) : Bool :=
  (('a' ≤ c) && (c ≤ 'z')) || (('0' ≤ c) && (c ≤ '9')) || (c == '-')

/-- The `validate` callback of the name prompt (`init.ts` lines 55–58):
JavaScript `/^[a-z0-9-]+$/.test(input)` over the character sequence of the
input — non-empty, every character in the class. -/
def validateName (s : String) : Bool :=
  !s.data.isEmpty && s.data.all isNameChar

/-- Declarative reading of the regex `^[a-z0-9-]+$` as the spec states it:
one-or-more repetition of the character class, anchored at both ends.
Used only to compare the spec wording with `validateName`. -/
inductive PlusMatch (p : Char → Bool) : List Char → Prop
  | single {c : Char} : p c = true → PlusMatch p [c]
  | cons {c : Char} {l : List Char} :
      p c = true → PlusMatch p l → PlusMatch p (c :: l)

/-- A string matches `^[a-z0-9-]+$` (spec-side definition). -/
def matchesNameRegex (s : String) : Prop :=
  PlusMatch isNameChar s.data

/-- The resolved initializer inputs (`ProjectOptions` in `init.ts`). -/
structure ProjectOpts where
  name : String
  template : String
  useTypeScript : Bool
  installDependencies : Bool
deriving DecidableEq, Repr

/-- Generated `midnight.config.json` contents
(`init.ts` lines 338–348). -/
structure GeneratedConfig where
  network : String
  compilerVersion : String
  outputDir : String
  proofServerPort : Nat
  docker : Bool
deriving DecidableEq, Repr

/-- The constant written to `midnight.config.json` by the scaffolder. -/
def genMidnightConfig : GeneratedConfig :=
  { network := "testnet", compilerVersion := "0.8.11", outputDir := "build",
    proofServerPort := 6300, docker := true }

/-- The generated `package.json` (`init.ts` lines 153–180). -/
structure Manifest where
  name : String
  version : String
  description : String
  scripts : List (String × String)
  dependencies : List (String × String)
  devDependencies : List (String × String)
  license : String
deriving DecidableEq, Repr

/-- The `packageJson` object built by `createProjectStructure`: only
`devDependencies` depends on the TypeScript flag, only `name` on the project
name. -/
def makeManifest (opts : ProjectOpts) : Manifest :=
  { name := opts.name,
    version := "0.1.0",
    description := "A Midnight Network DApp",
    scripts :=
      [("dev", "vite"), ("build", "vite build"), ("test", "jest"),
       ("compile-contract", "compactc src/contracts/main.compact -o build/"),
       ("deploy", "midnight deploy")],
    dependencies :=
      [("@midnight-ntwrk/midnight-js-sdk", "latest"),
       ("@midnight-ntwrk/compact-runtime", "latest"),
       ("react", "^18.2.0"), ("react-dom", "^18.2.0"), ("vite", "^4.4.0")],
    devDependencies :=
      if opts.useTypeScript then
        [("@types/react", "^18.2.0"), ("@types/react-dom", "^18.2.0"),
         ("typescript", "^5.0.0"), ("@vitejs/plugin-react", "^4.0.0")]
      else
        [("@vitejs/plugin-react", "^4.0.0")],
    license := "Apache-2.0" }

/-- Contents of a scaffolded file, symbolically: each constructor carries
exactly the data the template string depends on.  `appSource` is the starter
UI file, whose literal differs between the TypeScript and JavaScript
variants (`useState<number>(0)` vs `useState(0)`); `readme` embeds the
project name; `compactContract`, `gitignore` are constant templates. -/
inductive FileContent
  | packageJson (m : Manifest)
  | compactContract
  | appSource (useTypeScript : Bool)
  | readme (projectName : String)
  | gitignore
  | midnightConfig (c : GeneratedConfig)
deriving DecidableEq, Repr

/-- The subdirectories created under the project root
(`init.ts` lines 139–146). -/
def scaffoldDirs : List String :=
  ["src", "src/contracts", "src/components", "src/utils", "tests", "public"]

/-- `createProjectStructure` (`init.ts` lines 137–355): the directories
created and the files written (path, content), in program order. -/
def createProjectStructure (projectPath : String) (opts : ProjectOpts) :
    List String × List (String × FileContent) :=
  (scaffoldDirs.map (pathJoin projectPath),
   [(pathJoin projectPath "package.json", .packageJson (makeManifest opts)),
    (pathJoin projectPath "src/contracts/Counter.compact", .compactContract),
    (pathJoin projectPath
       ("src/App." ++ (if opts.useTypeScript then "tsx" else "jsx")),
     .appSource opts.useTypeScript),
    (pathJoin projectPath "README.md", .readme opts.name),
    (pathJoin projectPath ".gitignore", .gitignore),
    (pathJoin projectPath "midnight.config.json",
     .midnightConfig genMidnightConfig)])

/-- The filesystem as `init` sees it: the set of existing paths and the
files with contents. -/
structure InitState where
  paths : List String
  files : List (String × FileContent)
deriving DecidableEq, Repr

/-- Outcome of one `init` run.  `invalidName`: the prompt's validate callback
rejected the name, so the action body never runs (interactively the prompt
re-asks; no filesystem step is reached).  `dirExistsError`: the target path
exists, the command prints the error and calls `process.exit(1)`.
`success`: scaffolding completed (and dependencies were installed when
requested). -/
inductive InitOutcome
  | invalidName
  | dirExistsError
  | success (installedDependencies : Bool)
deriving DecidableEq, Repr

/-- The exit code requested by each outcome: `process.exit(1)` on the
existing-directory check (`init.ts` line 98), otherwise fall through. -/
def initExitCode : InitOutcome → Option Nat
  | .dirExistsError => some 1
  | _ => none

/-- The `init` command on a candidate name (`init.ts` lines 45–134):
validation gate, existing-directory check (`fs.existsSync`, line 96), then
directory creation and template writes via `createProjectStructure`. -/
def initRun (cwd : String) (st : InitState) (opts : ProjectOpts) :
    InitState × InitOutcome :=
  if validateName opts.name = false then (st, .invalidName)
  else
    let projectPath := pathJoin cwd opts.name
    if projectPath ∈ st.paths then (st, .dirExistsError)
    else
      let (dirs, files) := createProjectStructure projectPath opts
      ({ paths := st.paths ++ projectPath :: dirs ++ files.map (·.1),
         files := st.files ++ files },
       .success opts.installDependencies)

/-! ### `contract compile` (`contract.ts`) -/

/-- The default contracts directory consulted when no file argument is given
(`contract.ts` line 43, relative to the working directory). -/
def contractsDir : String := "src/contracts"

/-- JavaScript `f.endsWith('.compact')`, over the character sequence of the
file name. -/
def endsWithCompact (f : String) : Bool :=
  List.isSuffixOf ".compact".data f.data

/-- Contract-file selection (`contract.ts` lines 46–63), run only when no
explicit file argument was given: list the default directory, keep the
`.compact` entries in directory-listing order; zero candidates or a missing
directory throw; otherwise the first candidate is chosen, and when more than
one exists `spinner.info` reports the choice. -/
def selectContract (dirPresent : Bool) (listing : List String) :
    Except String (String × List Msg) :=
  if dirPresent then
    match listing.filter endsWithCompact with
    | [] => .error "No .compact files found in src/contracts/"
    | f :: rest =>
      .ok (pathJoin contractsDir f,
        if rest.isEmpty then []
        else [.info ("Found " ++ toString (rest.length + 1) ++
          " contracts, compiling " ++ f)])
  else .error "No contracts directory found. Run midnight init first."

/-- The environment `contract compile` reads: whether `src/contracts` exists
and its listing, which contract-file paths exist, whether the external
compiler answers `--version`, whether the compiler invocation succeeds, and
the resulting output-directory listing. -/
structure CompileEnv where
  contractsDirPresent : Bool
  contractsListing : List String
  existingPaths : List String
  compilerOk : Bool
  compileOk : Bool
  outputListing : List String
deriving DecidableEq, Repr

/-- Result of one `contract compile` run: messages, requested exit code,
the contract file finally selected (if any), and whether a one-shot compiler
invocation was performed. -/
structure CompileResult where
  msgs : List Msg
  exit : Option Nat
  selected : Option String
  compiled : Bool
deriving DecidableEq, Repr

/-- The failure path of `compileContract`'s catch block
(`contract.ts` lines 136–140): print and `process.exit(1)`. -/
def compileFailure (errMsg : String) : CompileResult :=
  { msgs := [.fail "Compilation failed", .fail ("Error: " ++ errMsg)],
    exit := some 1, selected := none, compiled := false }

/-- `compileContract` (`contract.ts` lines 38–141): select the contract file
(explicit argument, else `selectContract`), check it exists, check the
compiler, then either enter watch mode (no immediate compilation) or invoke
the compiler once; a thrown error reaches the catch block. -/
def compileRun (env : CompileEnv) (file : Option String)
    (watch verbose : Bool) : CompileResult :=
  let sel : Except String (String × List Msg) :=
    match file with
    | some f => .ok (f, [])
    | none => selectContract env.contractsDirPresent env.contractsListing
  match sel with
  | .error e => compileFailure e
  | .ok (contractFile, selMsgs) =>
    if contractFile ∉ env.existingPaths then
      compileFailure ("Contract file not found: " ++ contractFile)
    else if !env.compilerOk then
      compileFailure ("Compact compiler not found. Please install it and " ++
        "set COMPACT_HOME environment variable.")
    else if watch then
      { msgs := selMsgs ++ [.success "Watching for changes..."],
        exit := none, selected := some contractFile, compiled := false }
    else if env.compileOk then
      { msgs := selMsgs ++ [.success "Contract compiled successfully!"],
        exit := none, selected := some contractFile, compiled := true }
    else
      { msgs := selMsgs ++ [.fail "Compilation failed"],
        exit := some 1, selected := some contractFile, compiled := false }

/-! ### Watch mode (`contract.ts` lines 93–113)

The watcher keeps one mutable boolean `compiling`.  The change callback runs
`if (!compiling) { compiling = true; <recompile>; compiling = false }`.  The
period between setting and clearing the flag is the compilation being "in
flight"; a change event firing in that period sees `compiling = true` and
does nothing at all.  This is modelled as a transition system whose events
are a file-change notification and the completion of the running compile. -/

/-- Watcher state: the `compiling` flag of `contract.ts` line 94, plus a
count of compiler invocations performed so far. -/
structure WatchState where
  compiling : Bool
  invocations : Nat
deriving DecidableEq, Repr

/-- Events seen by the watcher: a `fs.watchFile` change notification, or the
in-flight compiler invocation finishing (`compiling = false`). -/
inductive WatchEvent
  | change
  | finish
deriving DecidableEq, Repr

/-- One step of the watcher: a change starts a compilation only when none is
in flight (the guard of line 96); otherwise the state is untouched —
the event leaves no trace.  `finish` clears the flag (line 106). -/
def watchStep (s : WatchState) : WatchEvent → WatchState
  | .change =>
    if s.compiling then s
    else { compiling := true, invocations := s.invocations + 1 }
  | .finish => { s with compiling := false }

/-- The watcher run over a sequence of events. -/
def watchRun (s : WatchState) : List WatchEvent → WatchState
  | [] => s
  | e :: es => watchRun (watchStep s e) es

/-! ### Proof-server commands (`proof-server.ts`) -/

/-- Name of the managed container (`midnight-proof-server`). -/
def proofServerContainer : String := "midnight-proof-server"

/-- A command result: messages and requested exit code (`none` = exit 0). -/
structure ProcResult where
  msgs : List Msg
  exit : Option Nat
deriving DecidableEq, Repr

/-- `proof-server status` (`checkStatus`, `proof-server.ts` lines 486–519):
`docker ps` filtered by the container name gives `containerName` (empty when
not running; failure of the `docker` call itself is `dockerOk = false` and
lands in the catch block, which prints a failure but never calls
`process.exit`).  When the container is running the health endpoint probed
is hard-coded to `http://localhost:6300/health`. -/
def checkStatusRun (dockerOk : Bool) (containerName : String)
    (healthy : Nat → Bool) : ProcResult :=
  if !dockerOk then
    { msgs := [.fail "Failed to check status"], exit := none }
  else if containerName ≠ "" then
    if healthy 6300 then
      { msgs := [.success "Proof server is running and healthy"],
        exit := none }
    else
      { msgs := [.warn "Proof server container is running but not responding"],
        exit := none }
  else
    { msgs := [.info "Proof server is not running"], exit := none }

/-- `proof-server start` (`startProofServer`, lines 396–473): Docker
installed/running preflights (fatal, `process.exit(1)`), already-running
health probe at the requested port (warn and return), image pull (failure is
a warning only), then the container launch on the requested port.  The
result records whether a container launch was attempted. -/
def startRun (dockerInstalled dockerRunning : Bool) (port : Nat)
    (healthy : Nat → Bool) (pullOk detached : Bool) :
    ProcResult × Bool :=
  if !dockerInstalled then
    ({ msgs := [.fail "Failed to start proof server",
        .fail "Error: Docker is not installed. Please install Docker Desktop first."],
       exit := some 1 }, false)
  else if !dockerRunning then
    ({ msgs := [.fail "Failed to start proof server",
        .fail "Error: Docker is not running. Please start Docker Desktop."],
       exit := some 1 }, false)
  else if healthy port then
    ({ msgs := [.warn ("Proof server is already running on port " ++
        toString port)], exit := none }, false)
  else
    ({ msgs :=
        (if pullOk then [] else [.warn "Could not pull latest image, using local version"]) ++
        [.success (if detached then
            "Proof server started on port " ++ toString port ++ " (detached)"
          else "Proof server starting on port " ++ toString port ++ "...")],
       exit := none }, true)

/-- `proof-server logs` (`viewLogs`, lines 521–537): spawn `docker logs`; a
spawn error only prints a message.  No path calls `process.exit`. -/
def viewLogsRun (spawnFailed : Bool) : ProcResult :=
  { msgs := if spawnFailed then
      [.fail "No logs available. Is the proof server running?"] else [],
    exit := none }

/-- `contract verify` (`verifyContract`, `contract.ts` lines 143–166): the
body only sleeps and prints, so the catch block is unreachable; and neither
the success path nor the catch block calls `process.exit`. -/
def verifyRun (address : String) : ProcResult :=
  { msgs := [.success "Contract verified successfully!",
             .info ("Contract: " ++ address)],
    exit := none }

/-- The `test` command (`test.ts` lines 19–108): scaffold the tests
directory when absent (with a sample test file), then run jest; a failing
jest run prints and calls `process.exit(1)`. -/
def testRun (testsDirPresent jestPasses : Bool) : ProcResult :=
  let scaffoldMsgs :=
    if testsDirPresent then []
    else [Msg.warn "No tests directory found. Creating one..."]
  if jestPasses then
    { msgs := scaffoldMsgs ++ [.success "All tests passed!"], exit := none }
  else
    { msgs := scaffoldMsgs ++ [.fail "Some tests failed"], exit := some 1 }

/-! ## Helper lemmas -/

/-- Assigning a key makes it readable back. -/
theorem lookupKey_setKey_self (l : Ledger) (k : String) (v : DeploymentRecord) :
    lookupKey (setKey l k v) k = some v := by
  induction l with
  | nil => simp [setKey, lookupKey]
  | cons hd tl ih =>
    by_cases h : hd.1 = k
    · simp [setKey, lookupKey, h]
    · simp [setKey, lookupKey, h, ih]

/-- Assigning a key leaves every other key unchanged. -/
theorem lookupKey_setKey_other (l : Ledger) (k : String) (v : DeploymentRecord)
    (m : String) (hm : m ≠ k) :
    lookupKey (setKey l k v) m = lookupKey l m := by
  induction l with
  | nil => simp [setKey, lookupKey, Ne.symm hm]
  | cons hd tl ih =>
    by_cases h : hd.1 = k
    · subst h
      simp [setKey, lookupKey, Ne.symm hm]
    · by_cases h2 : hd.1 = m
      · simp [setKey, lookupKey, h, h2, hm]
      · simp [setKey, lookupKey, h, h2, ih]

/-- `PlusMatch p` holds exactly on the non-empty lists all of whose elements
satisfy `p`. -/
theorem plusMatch_iff (p : Char → Bool) (l : List Char) :
    PlusMatch p l ↔ l ≠ [] ∧ ∀ c ∈ l, p c = true := by
  constructor
  · intro h
    induction h with
    | single hc =>
      exact ⟨by simp, by intro c hc2; simp at hc2; subst hc2; assumption⟩
    | cons hc _ ih =>
      refine ⟨by simp, ?_⟩
      intro c hc2
      rcases List.mem_cons.mp hc2 with h1 | h2
      · subst h1; assumption
      · exact ih.2 c h2
  · rintro ⟨hne, hall⟩
    induction l with
    | nil => exact absurd rfl hne
    | cons c cs ih =>
      cases cs with
      | nil => exact .single (hall c (by simp))
      | cons d ds =>
        exact .cons (hall c (by simp))
          (ih (by simp) (fun x hx => hall x (by simp [hx])))

/-- Sample deployment record used by concrete instantiations. -/
def sampleRecord (n : String) (bn : Nat) : DeploymentRecord :=
  { network := n, contractAddress := "mn_contract_00", transactionHash := "0x00",
    blockNumber := bn, timestamp := "2026-01-01T00:00:00.000Z" }

/-! ## Claims -/

/-- C1: the deploy operation reads the existing ledger mapping (empty when
the file is absent), replaces exactly the entry under the deploy network,
and leaves every other network's entry unchanged; deploying to `"testnet"`
then `"mainnet"` yields a ledger holding both records, and a further
`"testnet"` deploy overwrites only that key. -/
theorem deploy_ledger_merge_spec :
    (∀ (env : DeployEnv) (opts : DeployOpts) (nd : DeployNondet),
      resolveConfigPath opts ∈ env.existingPaths →
      resolveContractPath opts env.configContent ∈ env.existingPaths →
      (deployRun env opts nd).ledgerFile =
        some (saveDeployment env.ledgerFile
          (resolveNetwork opts.network env.configContent.network)
          { network := resolveNetwork opts.network env.configContent.network,
            contractAddress := nd.mockAddress,
            transactionHash := nd.mockTxHash,
            blockNumber := nd.blockNumber, timestamp := nd.timestamp })) ∧
    (∀ prior n rec, lookupKey (saveDeployment prior n rec) n = some rec) ∧
    (∀ prior n rec m, m ≠ n →
      lookupKey (saveDeployment prior n rec) m = lookupKey (prior.getD []) m) ∧
    (∀ r1 r2 r3 : DeploymentRecord,
      lookupKey (saveDeployment (some (saveDeployment none "testnet" r1))
        "mainnet" r2) "testnet" = some r1 ∧
      lookupKey (saveDeployment (some (saveDeployment none "testnet" r1))
        "mainnet" r2) "mainnet" = some r2 ∧
      lookupKey (saveDeployment (some (saveDeployment
        (some (saveDeployment none "testnet" r1)) "mainnet" r2))
        "testnet" r3) "testnet" = some r3 ∧
      lookupKey (saveDeployment (some (saveDeployment
        (some (saveDeployment none "testnet" r1)) "mainnet" r2))
        "testnet" r3) "mainnet" = some r2) := by
  refine ⟨?_, ?_, ?_, ?_⟩
  · intro env opts nd h1 h2
    simp [deployRun, h1, h2]
  · intro prior n rec
    exact lookupKey_setKey_self _ n rec
  · intro prior n rec m hm
    exact lookupKey_setKey_other _ n rec m hm
  · intro r1 r2 r3
    refine ⟨?_, ?_, ?_, ?_⟩ <;> simp [saveDeployment, setKey, lookupKey]

/-- Witness for C1 at concrete records and networks. -/
theorem deploy_ledger_merge_witness :
    lookupKey (saveDeployment (some [("testnet", sampleRecord "testnet" 1)])
      "mainnet" (sampleRecord "mainnet" 2)) "testnet" =
        some (sampleRecord "testnet" 1) := by
  have h := deploy_ledger_merge_spec.2.2.1
    (some [("testnet", sampleRecord "testnet" 1)]) "mainnet"
    (sampleRecord "mainnet" 2) "testnet" (by decide)
  simpa using h

/-- C5: when the configuration file is missing, or the resolved compiled
artifact is missing, `deploy` fails with exit 1, performs no
network/deployment step, and leaves the deployment ledger file untouched. -/
theorem deploy_precondition_failure_spec :
    ∀ (env : DeployEnv) (opts : DeployOpts) (nd : DeployNondet),
      (resolveConfigPath opts ∉ env.existingPaths ∨
       resolveContractPath opts env.configContent ∉ env.existingPaths) →
      (deployRun env opts nd).exit = some 1 ∧
      (deployRun env opts nd).ledgerFile = env.ledgerFile ∧
      (deployRun env opts nd).networkContacted = false ∧
      Msg.fail "Deployment failed" ∈ (deployRun env opts nd).msgs := by
  intro env opts nd h
  by_cases hc : resolveConfigPath opts ∈ env.existingPaths
  · rcases h with h | h
    · exact absurd hc h
    · simp [deployRun, hc, h]
  · simp [deployRun, hc]

/-- Witness for C5: an empty filesystem (no config file). -/
theorem deploy_precondition_failure_witness :
    (deployRun
      { existingPaths := [], configContent := { network := none, compiler := none },
        ledgerFile := some [("testnet", sampleRecord "testnet" 1)],
        proofServerHealthy := false }
      { network := "testnet", contractPath := none, configPath := none,
        verbose := false }
      { mockAddress := "a", mockTxHash := "t", blockNumber := 0,
        timestamp := "s" }).exit = some 1 ∧
    (deployRun
      { existingPaths := [], configContent := { network := none, compiler := none },
        ledgerFile := some [("testnet", sampleRecord "testnet" 1)],
        proofServerHealthy := false }
      { network := "testnet", contractPath := none, configPath := none,
        verbose := false }
      { mockAddress := "a", mockTxHash := "t", blockNumber := 0,
        timestamp := "s" }).ledgerFile = some [("testnet", sampleRecord "testnet" 1)] :=
  ⟨(deploy_precondition_failure_spec _ _ _ (Or.inl (by decide))).1,
   (deploy_precondition_failure_spec _ _ _ (Or.inl (by decide))).2.1⟩

/-- C9 counterexample: the network is not always the `--network` flag value.
`commander` accepts an explicitly empty value (`--network ""`), which is
falsy in `options.network || config.network || 'testnet'`, so the config
file's `network` field is consulted: with the flag `""` and a config whose
`network` is `"mainnet"`, the resolved network is `"mainnet"`, not the flag
value, and changing the config changes the result. -/
theorem network_flag_counterexample :
    resolveNetwork "" (some "mainnet") = "mainnet" ∧
    resolveNetwork "" (some "mainnet") ≠ "" ∧
    resolveNetwork "" (some "mainnet") ≠ resolveNetwork "" (some "testnet") ∧
    (deployRun
      { existingPaths := ["midnight.config.json", "build/contract.wasm"],
        configContent := { network := some "mainnet", compiler := none },
        ledgerFile := none, proofServerHealthy := true }
      { network := "", contractPath := none, configPath := none,
        verbose := false }
      { mockAddress := "a", mockTxHash := "t", blockNumber := 0,
        timestamp := "s" }).ledgerFile =
      some [("mainnet",
        { network := "mainnet", contractAddress := "a", transactionHash := "t",
          blockNumber := 0, timestamp := "s" })] := by
  refine ⟨by decide, by decide, by decide, by decide⟩

/-- C9 amended: whenever the `--network` flag carries a non-empty value —
which includes every invocation that omits the flag, since `commander`
supplies the default `"testnet"` — the deploy network equals the flag value
and the configuration file's `network` field is not consulted; only an
explicitly empty flag value falls through to the config. -/
theorem network_flag_spec :
    deployDefaultNetwork = "testnet" ∧
    (∀ flag cfgNet, flag ≠ "" → resolveNetwork flag cfgNet = flag) ∧
    (∀ flag c c', flag ≠ "" →
      resolveNetwork flag c = resolveNetwork flag c') ∧
    (∀ (env : DeployEnv) (opts : DeployOpts) (nd : DeployNondet),
      opts.network ≠ "" →
      resolveConfigPath opts ∈ env.existingPaths →
      resolveContractPath opts env.configContent ∈ env.existingPaths →
      (deployRun env opts nd).ledgerFile =
        some (saveDeployment env.ledgerFile opts.network
          { network := opts.network, contractAddress := nd.mockAddress,
            transactionHash := nd.mockTxHash, blockNumber := nd.blockNumber,
            timestamp := nd.timestamp })) := by
  refine ⟨rfl, ?_, ?_, ?_⟩
  · intro flag cfgNet hf
    simp [resolveNetwork, jsOrStr, hf]
  · intro flag c c' hf
    simp [resolveNetwork, jsOrStr, hf]
  · intro env opts nd hf h1 h2
    simp [deployRun, h1, h2, resolveNetwork, jsOrStr, hf]

/-- Witness for C9 amended: the default flag value deploys under
`"testnet"` whatever the config says. -/
theorem network_flag_spec_witness :
    resolveNetwork "testnet" (some "mainnet") = "testnet" ∧
    (deployRun
      { existingPaths := ["midnight.config.json", "build/contract.wasm"],
        configContent := { network := some "mainnet", compiler := none },
        ledgerFile := none, proofServerHealthy := true }
      { network := "testnet", contractPath := none, configPath := none,
        verbose := false }
      { mockAddress := "a", mockTxHash := "t", blockNumber := 0,
        timestamp := "s" }).ledgerFile =
      some (saveDeployment none "testnet"
        { network := "testnet", contractAddress := "a", transactionHash := "t",
          blockNumber := 0, timestamp := "s" }) :=
  ⟨network_flag_spec.2.1 "testnet" (some "mainnet") (by decide),
   network_flag_spec.2.2.2 _ _ _ (by decide) (by decide) (by decide)⟩

/-- C2: the initializer's name validation accepts a candidate name iff it
matches `^[a-z0-9-]+$` (`"my-app-1"` accepted, `"My App"` rejected), and a
name failing the check causes no filesystem mutation — the action body is
never reached. -/
theorem init_name_validation_spec :
    (∀ s, validateName s = true ↔ matchesNameRegex s) ∧
    validateName "my-app-1" = true ∧
    validateName "My App" = false ∧
    (∀ (cwd : String) (st : InitState) (opts : ProjectOpts),
      validateName opts.name = false →
      initRun cwd st opts = (st, .invalidName)) := by
  refine ⟨?_, by decide, by decide, ?_⟩
  · intro s
    rw [matchesNameRegex, plusMatch_iff]
    simp [validateName, List.all_eq_true]
  · intro cwd st opts h
    simp [initRun, h]

/-- Witness for C2 at the concrete names of the claim. -/
theorem init_name_validation_witness :
    matchesNameRegex "my-app-1" ∧
    initRun "/work"
      { paths := [], files := [] }
      { name := "My App", template := "basic-dapp", useTypeScript := true,
        installDependencies := true } =
      ({ paths := [], files := [] }, .invalidName) :=
  ⟨(init_name_validation_spec.1 "my-app-1").mp (by decide),
   init_name_validation_spec.2.2.2 "/work" _ _ (by decide)⟩

/-- C3: initializing a project whose target path already exists fails with
`process.exit(1)` before creating any directory or writing any file; the
filesystem state (hence the pre-existing directory's contents) is
unchanged. -/
theorem init_existing_dir_spec :
    ∀ (cwd : String) (st : InitState) (opts : ProjectOpts),
      validateName opts.name = true →
      pathJoin cwd opts.name ∈ st.paths →
      initRun cwd st opts = (st, .dirExistsError) ∧
      initExitCode (initRun cwd st opts).2 = some 1 := by
  intro cwd st opts hv hmem
  have h : initRun cwd st opts = (st, .dirExistsError) := by
    simp [initRun, hv, hmem]
  exact ⟨h, by rw [h]; rfl⟩

/-- Witness for C3: a filesystem already holding `/work/my-app`. -/
theorem init_existing_dir_witness :
    initRun "/work"
      { paths := ["/work/my-app"], files := [] }
      { name := "my-app", template := "basic-dapp", useTypeScript := true,
        installDependencies := true } =
      ({ paths := ["/work/my-app"], files := [] }, .dirExistsError) :=
  (init_existing_dir_spec "/work" _ _ (by decide) (by decide)).1

/-- C7: two initializer inputs differing only in the TypeScript flag
generate manifests whose dependency sets differ exactly in the presence of
the type-definition and compiler packages (`@types/react`,
`@types/react-dom`, `typescript`), with all other manifest fields equal; the
created directories and every other generated file are identical, except the
starter UI file whose extension and content are conditioned on the flag. -/
theorem typescript_flag_spec :
    ∀ (p name tmpl : String) (inst : Bool),
      (makeManifest ⟨name, tmpl, true, inst⟩).name =
        (makeManifest ⟨name, tmpl, false, inst⟩).name ∧
      (makeManifest ⟨name, tmpl, true, inst⟩).version =
        (makeManifest ⟨name, tmpl, false, inst⟩).version ∧
      (makeManifest ⟨name, tmpl, true, inst⟩).description =
        (makeManifest ⟨name, tmpl, false, inst⟩).description ∧
      (makeManifest ⟨name, tmpl, true, inst⟩).scripts =
        (makeManifest ⟨name, tmpl, false, inst⟩).scripts ∧
      (makeManifest ⟨name, tmpl, true, inst⟩).dependencies =
        (makeManifest ⟨name, tmpl, false, inst⟩).dependencies ∧
      (makeManifest ⟨name, tmpl, true, inst⟩).license =
        (makeManifest ⟨name, tmpl, false, inst⟩).license ∧
      (∀ k, k ∈ (makeManifest ⟨name, tmpl, true, inst⟩).devDependencies.map
          Prod.fst ↔
        (k ∈ (makeManifest ⟨name, tmpl, false, inst⟩).devDependencies.map
          Prod.fst ∨
         k ∈ ["@types/react", "@types/react-dom", "typescript"])) ∧
      (createProjectStructure p ⟨name, tmpl, true, inst⟩).1 =
        (createProjectStructure p ⟨name, tmpl, false, inst⟩).1 ∧
      (createProjectStructure p ⟨name, tmpl, true, inst⟩).2.length = 6 ∧
      (createProjectStructure p ⟨name, tmpl, false, inst⟩).2.length = 6 ∧
      (createProjectStructure p ⟨name, tmpl, true, inst⟩).2[0]? =
        some (pathJoin p "package.json",
          .packageJson (makeManifest ⟨name, tmpl, true, inst⟩)) ∧
      (createProjectStructure p ⟨name, tmpl, false, inst⟩).2[0]? =
        some (pathJoin p "package.json",
          .packageJson (makeManifest ⟨name, tmpl, false, inst⟩)) ∧
      (createProjectStructure p ⟨name, tmpl, true, inst⟩).2[1]? =
        (createProjectStructure p ⟨name, tmpl, false, inst⟩).2[1]? ∧
      (createProjectStructure p ⟨name, tmpl, true, inst⟩).2[3]? =
        (createProjectStructure p ⟨name, tmpl, false, inst⟩).2[3]? ∧
      (createProjectStructure p ⟨name, tmpl, true, inst⟩).2[4]? =
        (createProjectStructure p ⟨name, tmpl, false, inst⟩).2[4]? ∧
      (createProjectStructure p ⟨name, tmpl, true, inst⟩).2[5]? =
        (createProjectStructure p ⟨name, tmpl, false, inst⟩).2[5]? ∧
      (createProjectStructure p ⟨name, tmpl, true, inst⟩).2[2]? =
        some (pathJoin p "src/App.tsx", .appSource true) ∧
      (createProjectStructure p ⟨name, tmpl, false, inst⟩).2[2]? =
        some (pathJoin p "src/App.jsx", .appSource false) := by
  intro p name tmpl inst
  refine ⟨rfl, rfl, rfl, rfl, rfl, rfl, ?_, rfl, rfl, rfl, rfl, rfl, rfl,
    rfl, rfl, rfl, rfl, rfl⟩
  intro k
  simp [makeManifest]
  tauto

/-- C4 counterexample: with two `.compact` candidates and no explicit file,
the first is selected, but the message reporting the ambiguous choice is an
informational notice (`spinner.info`), not a warning — no `spinner.warn`
message is emitted anywhere on this path. -/
theorem compile_multi_warning_counterexample :
    selectContract true ["a.compact", "b.compact"] =
      .ok ("src/contracts/a.compact",
        [.info "Found 2 contracts, compiling a.compact"]) ∧
    (selectContract true ["a.compact", "b.compact"]).toOption.map
      (fun r => r.2.any Msg.isWarnB) = some false := by
  refine ⟨rfl, rfl⟩

/-- C4 amended: with no explicit file argument, zero `.compact` candidates in
the default directory fail with the "No .compact files found" error and exit
1; exactly one candidate is selected silently; with more than one, the first
file in directory-listing order is selected and an informational notice
(`spinner.info`, not a warning) reports the choice. -/
theorem compile_selection_spec :
    (∀ (env : CompileEnv) (w v : Bool),
      env.contractsDirPresent = true →
      env.contractsListing.filter endsWithCompact = [] →
      (compileRun env none w v).exit = some 1 ∧
      Msg.fail "Error: No .compact files found in src/contracts/" ∈
        (compileRun env none w v).msgs) ∧
    (∀ (listing : List String) (f : String),
      listing.filter endsWithCompact = [f] →
      selectContract true listing = .ok (pathJoin contractsDir f, [])) ∧
    (∀ (listing : List String) (f g : String) (rest : List String),
      listing.filter endsWithCompact = f :: g :: rest →
      selectContract true listing = .ok (pathJoin contractsDir f,
        [.info ("Found " ++ toString (rest.length + 2) ++
          " contracts, compiling " ++ f)])) := by
  refine ⟨?_, ?_, ?_⟩
  · intro env w v hdir hfilter
    simp [compileRun, selectContract, hdir, hfilter, compileFailure]
  · intro listing f hfilter
    simp [selectContract, hfilter]
  · intro listing f g rest hfilter
    simp [selectContract, hfilter]

/-- Witness for C4 amended at concrete directory listings. -/
theorem compile_selection_witness :
    (compileRun
      { contractsDirPresent := true, contractsListing := ["notes.md"],
        existingPaths := [], compilerOk := true, compileOk := true,
        outputListing := [] } none false false).exit = some 1 ∧
    selectContract true ["readme.md", "only.compact"] =
      .ok ("src/contracts/only.compact", []) ∧
    selectContract true ["a.compact", "b.compact", "c.compact"] =
      .ok ("src/contracts/a.compact",
        [.info "Found 3 contracts, compiling a.compact"]) :=
  ⟨(compile_selection_spec.1 _ false false rfl (by decide)).1,
   compile_selection_spec.2.1 ["readme.md", "only.compact"] "only.compact"
     (by decide),
   compile_selection_spec.2.2 ["a.compact", "b.compact", "c.compact"]
     "a.compact" "b.compact" ["c.compact"] (by decide)⟩

/-- C6 counterexample: not every fatal error path exits non-zero.  When the
`docker ps` call of `proof-server status` throws, the catch handler prints
the failure message and falls through — no `process.exit` call — so the
process exits 0; `proof-server logs` likewise only prints on a spawn error,
and `contract verify` never exits non-zero. -/
theorem exit_code_counterexample :
    (checkStatusRun false "" (fun _ => false)).exit = none ∧
    Msg.fail "Failed to check status" ∈
      (checkStatusRun false "" (fun _ => false)).msgs ∧
    (viewLogsRun true).exit = none ∧
    Msg.fail "No logs available. Is the proof server running?" ∈
      (viewLogsRun true).msgs ∧
    (verifyRun "mn_contract_00").exit = none := by
  refine ⟨by decide, by decide, by decide, by decide, by decide⟩

/-- C6 amended: the fatal error paths of `init`, `deploy`, `test`,
`contract compile`, and `proof-server start` terminate with exit code 1, and
success paths fall through with exit 0; but the error handlers of
`proof-server status` and `proof-server logs` (and the unreachable one of
`contract verify`) only print a failure message and let the process exit
zero. -/
theorem exit_code_spec :
    (∀ (cn : String) (h : Nat → Bool),
      (checkStatusRun false cn h).exit = none ∧
      Msg.fail "Failed to check status" ∈ (checkStatusRun false cn h).msgs) ∧
    (∀ b, (viewLogsRun b).exit = none) ∧
    (∀ a, (verifyRun a).exit = none) ∧
    (∀ (env : DeployEnv) (opts : DeployOpts) (nd : DeployNondet),
      resolveConfigPath opts ∉ env.existingPaths →
      (deployRun env opts nd).exit = some 1) ∧
    initExitCode .dirExistsError = some 1 ∧
    initExitCode .invalidName = none ∧
    (∀ s, initExitCode (.success s) = none) ∧
    (∀ e, (compileFailure e).exit = some 1) ∧
    (∀ (env : CompileEnv) (w v : Bool), env.contractsDirPresent = false →
      (compileRun env none w v).exit = some 1) ∧
    (∀ td, (testRun td false).exit = some 1) ∧
    (∀ td, (testRun td true).exit = none) ∧
    (∀ (port : Nat) (h : Nat → Bool) (pull det : Bool),
      (startRun false true port h pull det).1.exit = some 1 ∧
      (startRun true false port h pull det).1.exit = some 1) := by
  refine ⟨?_, ?_, ?_, ?_, rfl, rfl, ?_, ?_, ?_, ?_, ?_, ?_⟩
  · intro cn h; exact ⟨rfl, by simp [checkStatusRun]⟩
  · intro b; rfl
  · intro a; rfl
  · intro env opts nd h; simp [deployRun, h]
  · intro s; rfl
  · intro e; rfl
  · intro env w v h; simp [compileRun, selectContract, h, compileFailure]
  · intro td; cases td <;> rfl
  · intro td; cases td <;> rfl
  · intro port h pull det; exact ⟨rfl, rfl⟩

/-- Witness for C6 amended at concrete inputs. -/
theorem exit_code_spec_witness :
    (checkStatusRun false "midnight-proof-server" (fun _ => true)).exit =
      none ∧
    (deployRun
      { existingPaths := [], configContent := { network := none, compiler := none },
        ledgerFile := none, proofServerHealthy := true }
      { network := "testnet", contractPath := none, configPath := none,
        verbose := false }
      { mockAddress := "a", mockTxHash := "t", blockNumber := 0,
        timestamp := "s" }).exit = some 1 ∧
    (testRun true false).exit = some 1 :=
  ⟨(exit_code_spec.1 "midnight-proof-server" (fun _ => true)).1,
   exit_code_spec.2.2.2.1 _ _ _ (by decide),
   exit_code_spec.2.2.2.2.2.2.2.2.2.1 true⟩

/-- C8: in watch mode a change event triggers a compiler invocation only
when no compilation is in flight; a change arriving while the `compiling`
flag is set leaves the watcher state completely unchanged — the event is
dropped, not queued, so the rest of the run proceeds exactly as if it had
never happened. -/
theorem watch_guard_spec :
    (∀ s : WatchState, s.compiling = true → watchStep s .change = s) ∧
    (∀ s : WatchState, s.compiling = false →
      (watchStep s .change).invocations = s.invocations + 1 ∧
      (watchStep s .change).compiling = true) ∧
    (∀ (s : WatchState) (evs : List WatchEvent), s.compiling = true →
      watchRun s (.change :: evs) = watchRun s evs) := by
  refine ⟨?_, ?_, ?_⟩
  · intro s h; simp [watchStep, h]
  · intro s h; simp [watchStep, h]
  · intro s evs h; simp [watchRun, watchStep, h]

/-- Witness for C8: a change during an in-flight compile is dropped; a
change while idle starts one. -/
theorem watch_guard_witness :
    watchStep { compiling := true, invocations := 1 } .change =
      { compiling := true, invocations := 1 } ∧
    (watchStep { compiling := false, invocations := 1 } .change).invocations
      = 2 ∧
    watchRun { compiling := true, invocations := 1 } [.change, .finish] =
      watchRun { compiling := true, invocations := 1 } [.finish] :=
  ⟨watch_guard_spec.1 _ rfl, (watch_guard_spec.2.1 _ rfl).1,
   watch_guard_spec.2.2 _ [.finish] rfl⟩

/-- C10: `proof-server status` probes the health endpoint at the hard-coded
port 6300, whatever port was passed to `proof-server start`: its outcome
depends only on health at 6300, and for a running container whose server is
healthy exactly at some port `p ≠ 6300`, status reports "running but not
responding". -/
theorem status_port_spec :
    (∀ (ok : Bool) (cn : String) (h1 h2 : Nat → Bool),
      h1 6300 = h2 6300 → checkStatusRun ok cn h1 = checkStatusRun ok cn h2) ∧
    (∀ (p : Nat) (healthy : Nat → Bool),
      p ≠ 6300 → healthy p = true → (∀ q, q ≠ p → healthy q = false) →
      checkStatusRun true proofServerContainer healthy =
        { msgs := [.warn "Proof server container is running but not responding"],
          exit := none }) ∧
    (∀ (p : Nat) (healthy : Nat → Bool) (pull det : Bool),
      healthy p = true →
      startRun true true p healthy pull det =
        ({ msgs := [.warn ("Proof server is already running on port " ++
            toString p)], exit := none }, false)) := by
  refine ⟨?_, ?_, ?_⟩
  · intro ok cn h1 h2 h
    simp [checkStatusRun, h]
  · intro p healthy hp hhp hother
    have h6300 : healthy 6300 = false := hother 6300 (fun he => hp he.symm)
    simp [checkStatusRun, proofServerContainer, h6300]
  · intro p healthy pull det hh
    simp [startRun, hh]

/-- Witness for C10: a server started on (and healthy at) port 6301. -/
theorem status_port_witness :
    checkStatusRun true proofServerContainer (fun q => decide (q = 6301)) =
      { msgs := [.warn "Proof server container is running but not responding"],
        exit := none } ∧
    startRun true true 6301 (fun q => decide (q = 6301)) true true =
      ({ msgs := [.warn "Proof server is already running on port 6301"],
         exit := none }, false) :=
  ⟨status_port_spec.2.1 6301 (fun q => decide (q = 6301)) (by decide)
     (by decide) (fun q hq => decide_eq_false hq),
   status_port_spec.2.2 6301 (fun q => decide (q = 6301)) true true
     (by decide)⟩

end Midnight
